import Mathlib

set_option maxRecDepth 100000

/-!
Verification development for the bill-extraction backend.

The repository's core is the `/extract-amounts` Express route handler
(routes/extract.js): it fingerprints the uploaded image with SHA-256,
checks a content-addressed cache under `uploads/`, on a miss runs OCR,
calls the Gemini API over an ordered candidate list with 404-fallback,
parses the reply as JSON after stripping markdown fences, persists the
artifacts and answers the request.

This file shallowly embeds that handler: external collaborators (sharp +
Tesseract recognition, the Gemini SDK calls, filesystem write success)
are oracle fields of an `Env` record, the `uploads/` directory is an
association list, and the handler itself is the pure function `process`
returning its terminal response together with the updated store and an
observability trace (recognition calls, attempted candidates, attempted
writes).  SHA-256 and the JSON parser are implemented concretely so the
fingerprint and the reply-parsing behaviour are those of the code, not
assumptions.
-/

/-! ## SHA-256 (embedding of `crypto.createHash('sha256').update(buffer).digest('hex')`)

Bytes are naturals `< 256`; 32-bit words are naturals reduced `% 2^32`. -/

/-- Truncate to a 32-bit word. -/
def w32 (n : Nat) : Nat := n % 4294967296

/-- Right rotation of a 32-bit word by `n` bits. -/
def rotr (n x : Nat) : Nat := w32 ((x >>> n) ||| (x <<< (32 - n)))

def smallSigma0 (x : Nat) : Nat := (rotr 7 x) ^^^ (rotr 18 x) ^^^ (x >>> 3)

def smallSigma1 (x : Nat) : Nat := (rotr 17 x) ^^^ (rotr 19 x) ^^^ (x >>> 10)

def bigSigma0 (x : Nat) : Nat := (rotr 2 x) ^^^ (rotr 13 x) ^^^ (rotr 22 x)

def bigSigma1 (x : Nat) : Nat := (rotr 6 x) ^^^ (rotr 11 x) ^^^ (rotr 25 x)

def chFn (x y z : Nat) : Nat := (x &&& y) ^^^ ((x ^^^ 4294967295) &&& z)

def majFn (x y z : Nat) : Nat := (x &&& y) ^^^ (x &&& z) ^^^ (y &&& z)

/-- The 64 SHA-256 round constants (decimal). -/
def K256 : List Nat :=
  [1116352408, 1899447441, 3049323471, 3921009573, 961987163, 1508970993,
   2453635748, 2870763221, 3624381080, 310598401, 607225278, 1426881987,
   1925078388, 2162078206, 2614888103, 3248222580, 3835390401, 4022224774,
   264347078, 604807628, 770255983, 1249150122, 1555081692, 1996064986,
   2554220882, 2821834349, 2952996808, 3210313671, 3336571891, 3584528711,
   113926993, 338241895, 666307205, 773529912, 1294757372, 1396182291,
   1695183700, 1986661051, 2177026350, 2456956037, 2730485921, 2820302411,
   3259730800, 3345764771, 3516065817, 3600352804, 4094571909, 275423344,
   430227734, 506948616, 659060556, 883997877, 958139571, 1322822218,
   1537002063, 1747873779, 1955562222, 2024104815, 2227730452, 2361852424,
   2428436474, 2756734187, 3204031479, 3329325298]

/-- SHA-256 working state: eight 32-bit words. -/
structure H256 where
  a : Nat
  b : Nat
  c : Nat
  d : Nat
  e : Nat
  f : Nat
  g : Nat
  h : Nat
deriving DecidableEq, Repr

/-- SHA-256 initial hash value (decimal). -/
def initH : H256 :=
  ⟨1779033703, 3144134277, 1013904242, 2773480762,
   1359893119, 2600822924, 528734635, 1541459225⟩

/-- `n`-byte big-endian encoding of a natural number. -/
def beBytes : Nat → Nat → List Nat
  | 0, _ => []
  | k + 1, n => beBytes k (n / 256) ++ [n % 256]

/-- Pack bytes into big-endian 32-bit words (four bytes per word). -/
def beWords : List Nat → List Nat
  | b0 :: b1 :: b2 :: b3 :: rest =>
      ((((b0 % 256) * 256 + b1 % 256) * 256 + b2 % 256) * 256 + b3 % 256) :: beWords rest
  | _ => []

/-- SHA-256 padding: append `0x80`, zeros, and the 64-bit big-endian bit length. -/
def padMsg (msg : List Nat) : List Nat :=
  let len := msg.length
  let padZeros := (119 - len % 64) % 64
  msg ++ [0x80] ++ List.replicate padZeros 0 ++ beBytes 8 (8 * len)

/-- Extend the reversed message schedule by `n` further words (newest word first). -/
def schedRev : Nat → List Nat → List Nat
  | 0, r => r
  | n + 1, r =>
      let wt := w32 (smallSigma1 (r.getD 1 0) + r.getD 6 0 + smallSigma0 (r.getD 14 0) + r.getD 15 0)
      schedRev n (wt :: r)

/-- Message schedule: 16 block words extended to 64. -/
def schedule (block16 : List Nat) : List Nat := (schedRev 48 block16.reverse).reverse

/-- One SHA-256 compression round, consuming one `(constant, scheduleWord)` pair. -/
def roundStep (st : H256) (kw : Nat × Nat) : H256 :=
  let t1 := w32 (st.h + bigSigma1 st.e + chFn st.e st.f st.g + kw.1 + kw.2)
  let t2 := w32 (bigSigma0 st.a + majFn st.a st.b st.c)
  ⟨w32 (t1 + t2), st.a, st.b, st.c, w32 (st.d + t1), st.e, st.f, st.g⟩

/-- Compress one 64-byte block into the running hash state. -/
def compressBlock (st : H256) (block : List Nat) : H256 :=
  let ws := schedule (beWords block)
  let fin := (K256.zip ws).foldl roundStep st
  ⟨w32 (st.a + fin.a), w32 (st.b + fin.b), w32 (st.c + fin.c), w32 (st.d + fin.d),
   w32 (st.e + fin.e), w32 (st.f + fin.f), w32 (st.g + fin.g), w32 (st.h + fin.h)⟩

/-- Split into 64-byte chunks, with fuel bounding the number of chunks. -/
def chunksGo : Nat → List Nat → List (List Nat)
  | 0, _ => []
  | _, [] => []
  | n + 1, l => l.take 64 :: chunksGo n (l.drop 64)

def chunks64 (l : List Nat) : List (List Nat) := chunksGo l.length l

def hexDigit (n : Nat) : Char :=
  if n < 10 then Char.ofNat (48 + n) else Char.ofNat (87 + n)

/-- Lowercase hexadecimal rendering of a 32-bit word, eight digits. -/
def toHex8 (w : Nat) : String :=
  String.mk ((List.range 8).map (fun i => hexDigit ((w >>> (28 - 4 * i)) &&& 15)))

/-- The hex SHA-256 digest of a byte sequence:
`crypto.createHash('sha256').update(buffer).digest('hex')` (extract.js line 92). -/
def sha256hex (msg : List Nat) : String :=
  let fin := (chunks64 (padMsg msg)).foldl compressBlock initH
  String.join ([fin.a, fin.b, fin.c, fin.d, fin.e, fin.f, fin.g, fin.h].map toHex8)

example : sha256hex [] = "e3b0c44298fc1c149afbf4c8996fb92427ae41e4649b934ca495991b7852b855" := by
  rfl

example : sha256hex [97, 98, 99] =
    "ba7816bf8f01cfea414140de5dae2223b00361a396177a9cb410ff61f20015ad" := by
  rfl

/-! ## JSON values and `JSON.parse`

The handler trusts `JSON.parse` alone to validate the LLM reply
(extract.js lines 202-211).  We embed a recursive-descent parser for the
JSON fragment the pipeline exchanges: literals, integers and decimal
fractions (no exponents), strings with the simple escapes, arrays and
objects. -/

inductive Json where
  | null
  | bool (b : Bool)
  | num (mantissa : Int) (fracDigits : Nat)
  | str (s : String)
  | arr (elems : List Json)
  | obj (fields : List (String × Json))
deriving Repr

def isWsChar (c : Char) : Bool := c == ' ' || c == '\t' || c == '\n' || c == '\r'

def skipWs : List Char → List Char
  | [] => []
  | c :: cs => if isWsChar c then skipWs cs else c :: cs

/-- Resolve the character after a backslash in a JSON string literal. -/
def unescape (e : Char) : Option Char :=
  if e == '"' || e == '\\' || e == '/' then some e
  else if e == 'n' then some '\n'
  else if e == 't' then some '\t'
  else if e == 'r' then some '\r'
  else if e == 'b' then some (Char.ofNat 8)
  else if e == 'f' then some (Char.ofNat 12)
  else none

/-- Consume string content up to the closing quote (the opening quote is
already consumed), resolving escapes. -/
def parseStrChars : Nat → List Char → Option (List Char × List Char)
  | 0, _ => none
  | _, [] => none
  | fuel + 1, c :: cs =>
    if c == '"' then some ([], cs)
    else if c == '\\' then
      match cs with
      | [] => none
      | e :: cs2 =>
        match unescape e with
        | none => none
        | some r => (parseStrChars fuel cs2).map (fun p => (r :: p.1, p.2))
    else (parseStrChars fuel cs).map (fun p => (c :: p.1, p.2))

def isDigitCh (c : Char) : Bool := '0' ≤ c && c ≤ '9'

def takeDigits : List Char → List Char × List Char
  | [] => ([], [])
  | c :: cs =>
    if isDigitCh c then
      let p := takeDigits cs
      (c :: p.1, p.2)
    else ([], c :: cs)

def digitsToNat (ds : List Char) : Nat :=
  ds.foldl (fun acc c => acc * 10 + (c.toNat - 48)) 0

/-- Parse a JSON number: optional minus, digits, optional fraction.  A value
`m` with `k` fraction digits denotes `m / 10^k`. -/
def parseNum (cs : List Char) : Option (Json × List Char) :=
  let sd : Bool × List Char :=
    match cs with
    | '-' :: rest => (true, rest)
    | _ => (false, cs)
  match takeDigits sd.2 with
  | ([], _) => none
  | (d :: ds, rest) =>
    match rest with
    | '.' :: rest2 =>
      match takeDigits rest2 with
      | ([], _) => none
      | (f :: fs, rest3) =>
        let m : Int := Int.ofNat (digitsToNat ((d :: ds) ++ (f :: fs)))
        some (.num (if sd.1 then -m else m) (f :: fs).length, rest3)
    | _ =>
      let m : Int := Int.ofNat (digitsToNat (d :: ds))
      some (.num (if sd.1 then -m else m) 0, rest)

mutual

/-- Parse one JSON value (fuel-bounded recursive descent, leading whitespace allowed). -/
def parseVal : Nat → List Char → Option (Json × List Char)
  | 0, _ => none
  | fuel + 1, cs =>
    match skipWs cs with
    | [] => none
    | c :: rest =>
      if c == '"' then
        (parseStrChars (fuel + 1) rest).map (fun p => (.str (String.mk p.1), p.2))
      else if c == '[' then parseArrBody fuel rest
      else if c.toNat == 123 then parseObjBody fuel rest
      else if c == 't' then
        match rest with
        | 'r' :: 'u' :: 'e' :: cs2 => some (.bool true, cs2)
        | _ => none
      else if c == 'f' then
        match rest with
        | 'a' :: 'l' :: 's' :: 'e' :: cs2 => some (.bool false, cs2)
        | _ => none
      else if c == 'n' then
        match rest with
        | 'u' :: 'l' :: 'l' :: cs2 => some (.null, cs2)
        | _ => none
      else parseNum (c :: rest)

/-- After `[`: empty array or comma-separated elements. -/
def parseArrBody : Nat → List Char → Option (Json × List Char)
  | 0, _ => none
  | fuel + 1, cs =>
    match skipWs cs with
    | ']' :: rest => some (.arr [], rest)
    | cs2 => (parseElems fuel cs2).map (fun p => (.arr p.1, p.2))

def parseElems : Nat → List Char → Option (List Json × List Char)
  | 0, _ => none
  | fuel + 1, cs =>
    match parseVal fuel cs with
    | none => none
    | some (v, cs2) =>
      match skipWs cs2 with
      | ',' :: cs3 =>
        match parseElems fuel cs3 with
        | none => none
        | some (vs, cs4) => some (v :: vs, cs4)
      | ']' :: cs3 => some ([v], cs3)
      | _ => none

/-- After the opening brace: empty object or comma-separated fields. -/
def parseObjBody : Nat → List Char → Option (Json × List Char)
  | 0, _ => none
  | fuel + 1, cs =>
    match skipWs cs with
    | [] => none
    | c :: rest =>
      if c.toNat == 125 then some (.obj [], rest)
      else (parseFields fuel (c :: rest)).map (fun p => (.obj p.1, p.2))

def parseFields : Nat → List Char → Option (List (String × Json) × List Char)
  | 0, _ => none
  | fuel + 1, cs =>
    match skipWs cs with
    | '"' :: cs1 =>
      match parseStrChars (fuel + 1) cs1 with
      | none => none
      | some (key, cs2) =>
        match skipWs cs2 with
        | ':' :: cs3 =>
          match parseVal fuel cs3 with
          | none => none
          | some (v, cs4) =>
            match skipWs cs4 with
            | [] => none
            | c5 :: cs5 =>
              if c5 == ',' then
                match parseFields fuel cs5 with
                | none => none
                | some (fs, cs6) => some ((String.mk key, v) :: fs, cs6)
              else if c5.toNat == 125 then some ([(String.mk key, v)], cs5)
              else none
        | _ => none
    | _ => none

end

/-- `JSON.parse`: the whole string must be one JSON value (surrounding
whitespace allowed); any other input throws, modelled as `none`. -/
def jsonParse (s : String) : Option Json :=
  match parseVal (3 * s.length + 3) s.data with
  | some (v, rest) => if (skipWs rest).isEmpty then some v else none
  | none => none

/-- If `pat` is a prefix of `s`, return the remainder of `s`. -/
def stripPre : List Char → List Char → Option (List Char)
  | [], s => some s
  | _ :: _, [] => none
  | p :: ps, c :: cs => if p == c then stripPre ps cs else none

/-- Global replacement of a pattern by the empty string, scanning left to
right and continuing after each match, as a JS global regex replace does. -/
def dropAllPat (pat : List Char) : Nat → List Char → List Char
  | 0, s => s
  | _ + 1, [] => []
  | fuel + 1, c :: cs =>
    match stripPre pat (c :: cs) with
    | some rest => dropAllPat pat fuel rest
    | none => c :: dropAllPat pat fuel cs

/-- Drop leading and trailing whitespace. -/
def trimChars (s : List Char) : List Char := skipWs ((skipWs s.reverse).reverse)

/-- Extract.js line 203 — remove markdown fences and trim:
`llmResponse.replace(/111json/g, '').replace(/111/g, '').trim()` with `111`
standing for the triple backtick here. -/
def stripFences (s : String) : String :=
  let s1 := dropAllPat "\x60\x60\x60json".data s.data.length s.data
  let s2 := dropAllPat "\x60\x60\x60".data s1.length s1
  String.mk (trimChars s2)

inductive ValErr where
  | malformed
deriving DecidableEq, Repr

/-- Extract.js lines 202-211: clean the reply, `JSON.parse` it, and reject with
the invalid-format error (HTTP 500) exactly when the parse throws.  No
further structural validation is performed by the handler. -/
def validateResponse (llmResponse : String) : Except ValErr Json :=
  match jsonParse (stripFences llmResponse) with
  | some v => .ok v
  | none => .error .malformed

example :
    jsonParse "\x7b\"a\":[1,2.5,-3],\"b\":\"x\"\x7d" =
      some (.obj [("a", .arr [.num 1 0, .num 25 1, .num (-3) 0]), ("b", .str "x")]) := by
  rfl

example : jsonParse "\x7b\"a\":1" = none := by rfl

example :
    stripFences "\x60\x60\x60json\n\x7b\"a\":1\x7d\n\x60\x60\x60" = "\x7b\"a\":1\x7d" := by
  rfl

example :
    validateResponse "\x60\x60\x60json\n\x7b\"status\":\"ok\"\x7d\n\x60\x60\x60" =
      .ok (.obj [("status", .str "ok")]) := by
  rfl

/-! ## The `/extract-amounts` handler model

External collaborators (OCR, the Gemini SDK, filesystem write success) and
ambient configuration are oracle fields of `Env`; the `uploads/` directory
is an association list `Store`; `process` is the route handler, returning
its terminal response plus the updated store and an observability trace. -/

/-- Error thrown by a Gemini SDK call.  `status` and `statusText` may be
absent; the handler reads them as `llmErr?.status || 502` and
`llmErr?.statusText || 'LLM error'` (extract.js lines 180-181), so a `0` or
empty-string field is also replaced by the default, as JS falsiness does. -/
structure LlmErr where
  status : Option Nat
  statusText : Option String
deriving DecidableEq, Repr

/-- External collaborators and per-request configuration:
`envModel` is `process.env.GEMINI_MODEL`; `recognize` is the
sharp-preprocess + Tesseract step (an exception is `.error`);
`initModel` is `genAI.getGenerativeModel({model: name})`;
`genContent name prompt` is `m.generateContent(prompt)` followed by
`result.response.text()`; `writeFails p` tells whether `fs.writeFile` on
path `p` throws. -/
structure Env where
  envModel : Option String
  recognize : List Nat → Except Unit String
  initModel : String → Except LlmErr Unit
  genContent : String → String → Except LlmErr String
  writeFails : String → Bool

/-- A file persisted under `uploads/`: raw image bytes, or a JSON document
(the handler only ever writes `JSON.stringify` output to `.json` paths, so
the serialized form is modelled by its parsed value). -/
inductive FileContent where
  | image (bytes : List Nat)
  | jsonFile (v : Json)
deriving Repr

abbrev Store := List (String × FileContent)

def storeLookup (s : Store) (k : String) : Option FileContent :=
  (s.find? (fun p => p.1 == k)).map (fun p => p.2)

def storePut (s : Store) (k : String) (v : FileContent) : Store :=
  (k, v) :: s.filter (fun p => p.1 != k)

/-- Observability trace of one request: how many times OCR ran, which
candidates `generateContent` was attempted on (in order), and which paths
`fs.writeFile` was attempted on (in order). -/
structure Trace where
  recognizeCalls : Nat
  llmAttempts : List String
  writeCalls : List String
deriving DecidableEq, Repr

def imagePath (h : String) : String := "uploads/" ++ h ++ ".png"

def jsonPath (h : String) : String := "uploads/" ++ h ++ ".json"

/-- Extract.js lines 114-119. -/
def defaultCandidates : List String :=
  ["gemini-1.5-flash-8b", "gemini-1.5-flash-8b-latest", "gemini-1.5-pro", "gemini-1.5-pro-latest"]

/-- Extract.js line 120: `envModel ? [envModel, ...defaults] : defaults`
(an empty-string override is falsy and ignored). -/
def modelCandidates (env : Env) : List String :=
  match env.envModel with
  | some m => if m == "" then defaultCandidates else m :: defaultCandidates
  | none => defaultCandidates

/-- Line 180: `llmErr?.status || 502`. -/
def classifyStatus (e : LlmErr) : Nat :=
  match e.status with
  | some s => if s == 0 then 502 else s
  | none => 502

/-- Line 181: `llmErr?.statusText || 'LLM error'`. -/
def classifyText (e : LlmErr) : String :=
  match e.statusText with
  | some t => if t == "" then "LLM error" else t
  | none => "LLM error"

/-- Lines 122-131: keep the first candidate whose `getGenerativeModel` call
does not throw. -/
def initLoop (env : Env) (cands : List String) : Option String :=
  cands.find? (fun n => match env.initModel n with | .ok _ => true | .error _ => false)

/-- One iteration body of the generateContent loop (lines 173-175): the
per-candidate `getGenerativeModel` and `generateContent` calls share one
try/catch, so an error from either is the candidate's failure. -/
def callCandidate (env : Env) (prompt name : String) : Except LlmErr String :=
  match env.initModel name with
  | .error e => .error e
  | .ok _ => env.genContent name prompt

/-- Outcome of the candidate-fallback loop. -/
inductive InvokeOutcome where
  | success (text modelUsed : String)
  | fatal (status : Nat) (statusText : String)
  | exhausted
deriving DecidableEq, Repr

/-- Extract.js lines 171-195: try candidates in order; a success breaks with
the produced text; a 404-classified failure advances to the next candidate;
any other failure returns at once.  Also returns the list of candidates
attempted, in order. -/
def invoke (env : Env) (prompt : String) : List String → InvokeOutcome × List String
  | [] => (.exhausted, [])
  | name :: rest =>
    match callCandidate env prompt name with
    | .ok text => (.success text name, [name])
    | .error e =>
      if classifyStatus e == 404 then
        let r := invoke env prompt rest
        (r.1, name :: r.2)
      else (.fatal (classifyStatus e) (classifyText e), [name])

/-- The distinct terminal responses of the handler, one per exit point:
400 no-file (line 88), 200 cache hit (line 100), 502 init failure
(line 134), 429/502 LLM failure (lines 188-193), 404 no accessible model
(lines 197-199), 500 invalid format (line 210), 500 outer catch (line 221),
200 success (line 217). -/
inductive ProcResult where
  | noFile
  | cached (v : Json)
  | initFailed
  | llmFailed (status : Nat) (statusText : String)
  | noModel
  | invalidFormat
  | genericError
  | success (v : Json)
deriving Repr

/-- Result, updated `uploads/` directory, and trace of one request. -/
structure ProcOut where
  result : ProcResult
  store : Store
  trace : Trace

def rateLimitHint : String := "Rate limit exceeded. Please retry after some time."

def accessHint : String := "Check API key and model name or permissions in AI Studio."

def noModelMessage : String :=
  "No accessible Gemini model found for your API key/region. Set GEMINI_MODEL in .env to a model you can access (e.g., gemini-1.5-pro, gemini-1.5-flash-8b) and restart."

/-- Line 192: the `hint` field accompanying an LLM failure. -/
def llmHint (status : Nat) : String := if status == 429 then rateLimitHint else accessHint

/-- The `res.status(...)` code of each terminal response. -/
def responseStatus : ProcResult → Nat
  | .noFile => 400
  | .cached _ => 200
  | .initFailed => 502
  | .llmFailed s _ => if s == 429 then 429 else 502
  | .noModel => 404
  | .invalidFormat => 500
  | .genericError => 500
  | .success _ => 200

/-- The caller-facing remediation text of each terminal response, when the
body carries one (`hint` for LLM failures, `error` for model exhaustion). -/
def responseAdvice : ProcResult → Option String
  | .llmFailed s _ => some (llmHint s)
  | .noModel => some noModelMessage
  | _ => none

/-- The extraction prompt up to the OCR text interpolation point
(extract.js lines 138-163). -/
def promptPre : String :=
  "You are an expert financial data extraction AI specializing in medical documents.\n" ++
  "Your task is to extract financial amounts from the following text, which may contain OCR errors.\n" ++
  "\n" ++
  "Instructions:\n" ++
  "1. Correct any obvious OCR errors in numbers (e.g., \x27l\x27 should be \x271\x27, \x27O\x27 should be \x270\x27).\n" ++
  "2. Identify the currency (look for symbols like $, â‚¹, INR, USD, EUR, etc.). Default to \"INR\" if unclear.\n" ++
  "3. Extract amounts for: \"total_bill\", \"paid\", \"due\". Look for keywords like Total, Subtotal, Amount Due, Paid, Balance, etc.\n" ++
  "4. For each amount found, include the exact source text from the document.\n" ++
  "5. If you cannot find a value for a specific type, do not include it in the amounts array.\n" ++
  "6. Your response MUST be a single, valid JSON object in this exact format:\n" ++
  "\n" ++
  "\x7b\n" ++
  "  \"currency\": \"[detected currency code]\",\n" ++
  "  \"amounts\": [\n" ++
  "    \x7b\"type\":\"total_bill\",\"value\":[number],\"source\":\"text: \x27[exact text from document]\x27\"\x7d,\n" ++
  "    \x7b\"type\":\"paid\",\"value\":[number],\"source\":\"text: \x27[exact text from document]\x27\"\x7d,\n" ++
  "    \x7b\"type\":\"due\",\"value\":[number],\"source\":\"text: \x27[exact text from document]\x27\"\x7d\n" ++
  "  ],\n" ++
  "  \"status\":\"ok\"\n" ++
  "\x7d\n" ++
  "\n" ++
  "Do not include markdown formatting, explanations, or any text outside the JSON.\n" ++
  "\n" ++
  "Text to analyze:\n" ++
  "---\n"

/-- The tail of the prompt after the OCR text (extract.js lines 164-166). -/
def promptPost : String := "\n---\n\nJSON Output:"

/-- The template literal of extract.js lines 138-166 with `ocrText` spliced in. -/
def buildPrompt (ocrText : String) : String := promptPre ++ ocrText ++ promptPost

/-- The `/extract-amounts` route handler (extract.js lines 86-223).

* no uploaded file → 400 (line 88);
* otherwise fingerprint the buffer (line 92) and read
  `uploads/<hash>.json`; a readable JSON file is the cache hit (line 100).
  A missing file — or unparseable content, whose `JSON.parse` throw also
  lands in the catch of line 101 — enters the processing branch;
* OCR (lines 105-109; a throw reaches the outer catch, line 221);
* model init loop (lines 122-135), 502 when no candidate initializes;
* generateContent fallback loop (`invoke`, lines 171-195);
* `JSON.parse` validation of the cleaned reply (lines 202-211);
* persist `uploads/<hash>.png` then `uploads/<hash>.json` (lines 213-215;
  a throw reaches the outer catch) and answer 200 (line 217). -/
def process (env : Env) (store : Store) (file : Option (List Nat)) : ProcOut :=
  match file with
  | none => ⟨.noFile, store, ⟨0, [], []⟩⟩
  | some buffer =>
    let h := sha256hex buffer
    match storeLookup store (jsonPath h) with
    | some (.jsonFile v) => ⟨.cached v, store, ⟨0, [], []⟩⟩
    | _ =>
      match env.recognize buffer with
      | .error _ => ⟨.genericError, store, ⟨1, [], []⟩⟩
      | .ok ocrText =>
        let cands := modelCandidates env
        match initLoop env cands with
        | none => ⟨.initFailed, store, ⟨1, [], []⟩⟩
        | some _ =>
          let inv := invoke env (buildPrompt ocrText) cands
          match inv.1 with
          | .fatal s t => ⟨.llmFailed s t, store, ⟨1, inv.2, []⟩⟩
          | .exhausted => ⟨.noModel, store, ⟨1, inv.2, []⟩⟩
          | .success text _ =>
            match validateResponse text with
            | .error _ => ⟨.invalidFormat, store, ⟨1, inv.2, []⟩⟩
            | .ok v =>
              if env.writeFails (imagePath h) then
                ⟨.genericError, store, ⟨1, inv.2, [imagePath h]⟩⟩
              else if env.writeFails (jsonPath h) then
                ⟨.genericError, storePut store (imagePath h) (.image buffer),
                  ⟨1, inv.2, [imagePath h, jsonPath h]⟩⟩
              else
                ⟨.success v,
                  storePut (storePut store (imagePath h) (.image buffer)) (jsonPath h)
                    (.jsonFile v),
                  ⟨1, inv.2, [imagePath h, jsonPath h]⟩⟩

/-! ## Sanity of the model on a concrete run -/

/-- A benign stub environment: OCR succeeds, every model initializes, the
first `generateContent` succeeds with a minimal JSON reply, writes succeed. -/
def stubEnv : Env where
  envModel := none
  recognize := fun _ => .ok "Total: 100"
  initModel := fun _ => .ok ()
  genContent := fun _ _ => .ok "\x7b\"status\":\"ok\"\x7d"
  writeFails := fun _ => false

example :
    (process stubEnv [] (some [1])).result = .success (.obj [("status", .str "ok")]) := by
  rfl

example : (process stubEnv [] (some [1])).trace.llmAttempts = ["gemini-1.5-flash-8b"] := by
  rfl

/-! ## Shared lemmas about the fallback loop -/

/-- Candidates that all fail with a 404 classification are attempted, in
order, and skipped: the loop continues into the remainder of the list. -/
theorem invoke_append_404 (env : Env) (prompt : String) (pre rest : List String)
    (hpre : ∀ x ∈ pre, ∃ e, callCandidate env prompt x = .error e ∧ classifyStatus e = 404) :
    invoke env prompt (pre ++ rest) =
      ((invoke env prompt rest).1, pre ++ (invoke env prompt rest).2) := by
  induction pre with
  | nil => simp
  | cons a as ih =>
    obtain ⟨e, he, hc⟩ := hpre a (by simp)
    have hrec := ih (fun x hx => hpre x (by simp [hx]))
    simp [invoke, he, hc, hrec]

/-! ## C8 — fingerprint determinism -/

/-- C8: the fingerprint is a deterministic function of the input bytes; any
two computations of `sha256hex` over identical byte content yield the
identical digest. -/
theorem c8_fingerprint_deterministic (b1 b2 : List Nat) (h : b1 = b2) :
    sha256hex b1 = sha256hex b2 :=
  congrArg sha256hex h

/-- C8 witness: the digests of two computations over the bytes of `"abc"`
agree, and evaluate to the standard SHA-256 test-vector digest. -/
theorem c8_fingerprint_witness :
    sha256hex [97, 98, 99] = sha256hex [97, 98, 99] ∧
      sha256hex [97, 98, 99] =
        "ba7816bf8f01cfea414140de5dae2223b00361a396177a9cb410ff61f20015ad" :=
  ⟨c8_fingerprint_deterministic [97, 98, 99] [97, 98, 99] rfl, by rfl⟩

/-! ## C3 — rate-limit short circuit -/

/-- C3: if the loop reaches a candidate (all earlier candidates failed with
the 404 classification) and that candidate's call fails classified as
rate-limited (429), `invoke` returns the fatal outcome at once: the
candidate was attempted exactly once, no later candidate is attempted, and
the outcome maps to HTTP 429 with the rate-limit hint. -/
theorem c3_rate_limit_short_circuit (env : Env) (prompt : String) (pre post : List String)
    (c : String) (e : LlmErr)
    (hpre : ∀ x ∈ pre, ∃ ex, callCandidate env prompt x = .error ex ∧ classifyStatus ex = 404)
    (hc : callCandidate env prompt c = .error e)
    (h429 : classifyStatus e = 429) :
    invoke env prompt (pre ++ c :: post) = (.fatal 429 (classifyText e), pre ++ [c])
      ∧ (pre ++ [c]).count c = 1
      ∧ responseStatus (.llmFailed 429 (classifyText e)) = 429
      ∧ responseAdvice (.llmFailed 429 (classifyText e)) = some rateLimitHint := by
  have hnotin : c ∉ pre := by
    intro hmem
    obtain ⟨ex, hex, hcx⟩ := hpre c hmem
    rw [hc] at hex
    cases hex
    rw [hcx] at h429
    exact absurd h429 (by decide)
  have htail : invoke env prompt (c :: post) = (.fatal 429 (classifyText e), [c]) := by
    simp [invoke, hc, h429]
  refine ⟨?_, ?_, ?_, ?_⟩
  · rw [invoke_append_404 env prompt pre (c :: post) hpre, htail]
  · simp [List.count_append, List.count_eq_zero_of_not_mem hnotin]
  · rfl
  · rfl

/-- Stub environment of the spec's rate-limit scenario: the override
candidate is rate-limited; later candidates would succeed. -/
def rateLimitEnv : Env where
  envModel := some "candidate-a"
  recognize := fun _ => .ok "t"
  initModel := fun _ => .ok ()
  genContent := fun name _ =>
    if name == "candidate-a" then .error ⟨some 429, some "Too Many Requests"⟩
    else .ok "reply-from-b"
  writeFails := fun _ => false

/-- C3 witness: with candidate A rate-limited and candidate B available,
`invoke` stops after the single attempt of A. -/
theorem c3_rate_limit_witness :
    invoke rateLimitEnv "p" ("candidate-a" :: defaultCandidates) =
        (.fatal 429 "Too Many Requests", ["candidate-a"])
      ∧ (["candidate-a"] : List String).count "candidate-a" = 1
      ∧ responseStatus (.llmFailed 429 "Too Many Requests") = 429
      ∧ responseAdvice (.llmFailed 429 "Too Many Requests") = some rateLimitHint := by
  have h := c3_rate_limit_short_circuit rateLimitEnv "p" [] defaultCandidates "candidate-a"
    ⟨some 429, some "Too Many Requests"⟩
    (fun x hx => absurd hx (List.not_mem_nil x)) rfl rfl
  simpa [classifyText] using h

/-! ## C4 — ordered fallback, first success terminates -/

/-- C4: the loop walks the candidate list in order; candidates failing with
the not-found classification are skipped, and the first candidate whose
call succeeds terminates the iteration with its text and identifier.  The
attempted candidates are exactly the prefix up to the winner, so on a
duplicate-free list every candidate is attempted at most once. -/
theorem c4_candidate_fallback (env : Env) (prompt : String) (pre post : List String)
    (c text : String)
    (hpre : ∀ x ∈ pre, ∃ ex, callCandidate env prompt x = .error ex ∧ classifyStatus ex = 404)
    (hc : callCandidate env prompt c = .ok text) :
    invoke env prompt (pre ++ c :: post) = (.success text c, pre ++ [c])
      ∧ ((pre ++ c :: post).Nodup → ∀ x, (pre ++ [c]).count x ≤ 1) := by
  have htail : invoke env prompt (c :: post) = (.success text c, [c]) := by
    simp [invoke, hc]
  constructor
  · rw [invoke_append_404 env prompt pre (c :: post) hpre, htail]
  · intro hnd x
    have hsub : (pre ++ [c]).Sublist (pre ++ c :: post) :=
      List.Sublist.append_left ((List.nil_sublist post).cons₂ c) pre
    exact List.nodup_iff_count_le_one.mp (hnd.sublist hsub) x

/-- Stub environment of the spec's fallback scenario: candidate A is
not-found, candidate B succeeds. -/
def fallbackEnv : Env where
  envModel := some "candidate-a"
  recognize := fun _ => .ok "t"
  initModel := fun _ => .ok ()
  genContent := fun name _ =>
    if name == "candidate-a" then .error ⟨some 404, some "Not Found"⟩
    else .ok "reply-from-b"
  writeFails := fun _ => false

/-- C4 witness: A not-found then B succeeds gives B's result and exactly the
two attempted calls, in order. -/
theorem c4_candidate_fallback_witness :
    invoke fallbackEnv "p"
        (["candidate-a"] ++ "gemini-1.5-flash-8b" ::
          ["gemini-1.5-flash-8b-latest", "gemini-1.5-pro", "gemini-1.5-pro-latest"]) =
        (.success "reply-from-b" "gemini-1.5-flash-8b", ["candidate-a"] ++ ["gemini-1.5-flash-8b"])
      ∧ (["candidate-a"] ++ ["gemini-1.5-flash-8b"]).count "gemini-1.5-flash-8b" ≤ 1 := by
  have h := c4_candidate_fallback fallbackEnv "p" ["candidate-a"]
    ["gemini-1.5-flash-8b-latest", "gemini-1.5-pro", "gemini-1.5-pro-latest"]
    "gemini-1.5-flash-8b" "reply-from-b"
    (by
      intro x hx
      have hx2 : x = "candidate-a" := by simpa using hx
      subst hx2
      exact ⟨⟨some 404, some "Not Found"⟩, rfl, rfl⟩)
    rfl
  exact ⟨h.1, h.2 (by decide) "gemini-1.5-flash-8b"⟩

/-! ## C10 — a status-less failure is fatal -/

/-- C10: an external call failure whose error carries no numeric status is
classified with the 502 default, which is not the retryable 404 class: the
loop stops at that candidate, attempts no later one, and the failure maps
to HTTP 502 with the non-rate-limit hint. -/
theorem c10_no_status_fatal (env : Env) (prompt : String) (pre post : List String)
    (c : String) (e : LlmErr)
    (hpre : ∀ x ∈ pre, ∃ ex, callCandidate env prompt x = .error ex ∧ classifyStatus ex = 404)
    (hc : callCandidate env prompt c = .error e)
    (hnone : e.status = none) :
    invoke env prompt (pre ++ c :: post) = (.fatal 502 (classifyText e), pre ++ [c])
      ∧ responseStatus (.llmFailed 502 (classifyText e)) = 502
      ∧ responseAdvice (.llmFailed 502 (classifyText e)) = some accessHint := by
  have h502 : classifyStatus e = 502 := by simp [classifyStatus, hnone]
  have htail : invoke env prompt (c :: post) = (.fatal 502 (classifyText e), [c]) := by
    simp [invoke, hc, h502]
  refine ⟨?_, rfl, rfl⟩
  rw [invoke_append_404 env prompt pre (c :: post) hpre, htail]

/-- Stub environment whose override candidate throws an error object with no
`status` and no `statusText` fields. -/
def noStatusEnv : Env where
  envModel := some "candidate-a"
  recognize := fun _ => .ok "t"
  initModel := fun _ => .ok ()
  genContent := fun name _ =>
    if name == "candidate-a" then .error ⟨none, none⟩
    else .ok "unreached"
  writeFails := fun _ => false

/-- C10 witness: a status-less error on the first candidate returns the 502
fatal outcome immediately with the access hint; candidate B is untried. -/
theorem c10_no_status_witness :
    invoke noStatusEnv "p" ("candidate-a" :: defaultCandidates) =
        (.fatal 502 "LLM error", ["candidate-a"])
      ∧ responseStatus (.llmFailed 502 "LLM error") = 502
      ∧ responseAdvice (.llmFailed 502 "LLM error") = some accessHint := by
  have h := c10_no_status_fatal noStatusEnv "p" [] defaultCandidates "candidate-a" ⟨none, none⟩
    (fun x hx => absurd hx (List.not_mem_nil x)) rfl rfl
  simpa [classifyText] using h

/-! ## C5 — candidate exhaustion is a distinct outcome -/

/-- C5: when every candidate fails with the retryable 404 classification,
the loop exhausts the list and `process` answers with the distinct
no-accessible-model outcome — not an LLM fatal failure — mapped to HTTP 404
with the remediation message that suggests setting the `GEMINI_MODEL`
override. -/
theorem c5_exhaustion_no_accessible_model (env : Env) (store : Store) (buffer : List Nat)
    (ocrText minit : String)
    (hmiss : storeLookup store (jsonPath (sha256hex buffer)) = none)
    (hrec : env.recognize buffer = .ok ocrText)
    (hinit : initLoop env (modelCandidates env) = some minit)
    (hall : ∀ x ∈ modelCandidates env,
      ∃ ex, callCandidate env (buildPrompt ocrText) x = .error ex ∧ classifyStatus ex = 404) :
    (process env store (some buffer)).result = .noModel
      ∧ (∀ s t, (process env store (some buffer)).result ≠ .llmFailed s t)
      ∧ responseStatus .noModel = 404
      ∧ responseAdvice .noModel = some noModelMessage := by
  have hinv : invoke env (buildPrompt ocrText) (modelCandidates env) =
      (.exhausted, modelCandidates env) := by
    have h := invoke_append_404 env (buildPrompt ocrText) (modelCandidates env) [] hall
    simpa [invoke] using h
  have hres : (process env store (some buffer)).result = .noModel := by
    simp [process, hmiss, hrec, hinit, hinv]
  refine ⟨hres, ?_, rfl, rfl⟩
  intro s t h
  rw [hres] at h
  exact ProcResult.noConfusion h

/-- Stub environment in which every `generateContent` call is a 404. -/
def exhaustedEnv : Env where
  envModel := none
  recognize := fun _ => .ok "t"
  initModel := fun _ => .ok ()
  genContent := fun _ _ => .error ⟨some 404, some "Not Found"⟩
  writeFails := fun _ => false

/-- C5 witness: with every candidate 404, the request ends in the
no-accessible-model outcome with its remediation message. -/
theorem c5_exhaustion_witness :
    (process exhaustedEnv [] (some [2])).result = .noModel
      ∧ (∀ s t, (process exhaustedEnv [] (some [2])).result ≠ .llmFailed s t)
      ∧ responseStatus .noModel = 404
      ∧ responseAdvice .noModel = some noModelMessage :=
  c5_exhaustion_no_accessible_model exhaustedEnv [] [2] "t" "gemini-1.5-flash-8b" rfl rfl rfl
    (fun _ _ => ⟨⟨some 404, some "Not Found"⟩, rfl, rfl⟩)

/-! ## C1 — what the validator actually checks -/

/-- An external reply whose single amounts entry carries the unrecognized
kind `"tax"` — valid JSON, so `JSON.parse` succeeds. -/
def taxReply : String :=
  "\x7b\"currency\":\"USD\",\"amounts\":[\x7b\"type\":\"tax\",\"value\":5,\"source\":\"text: tax 5\"\x7d],\"status\":\"ok\"\x7d"

/-- The parse of `taxReply`. -/
def taxJson : Json :=
  .obj [("currency", .str "USD"),
        ("amounts", .arr
          [.obj [("type", .str "tax"), ("value", .num 5 0), ("source", .str "text: tax 5")]]),
        ("status", .str "ok")]

/-- C1 counterexample: the reply with the unrecognized kind `"tax"` is
accepted by the validator, not rejected with the malformed-response error —
the handler performs no per-entry kind/value/source checks. -/
theorem c1_counterexample :
    validateResponse taxReply = .ok taxJson
      ∧ validateResponse taxReply ≠ .error .malformed := by
  refine ⟨rfl, ?_⟩
  intro h
  have e : Except.ok taxJson = (Except.error ValErr.malformed : Except ValErr Json) := h
  exact Except.noConfusion e

/-- C1 (amended): the validator strips formatting fences and parses the
reply as JSON; it rejects with the malformed-response error exactly when
that parse fails, and accepts every parseable reply unchanged, with no
top-level shape check and no per-entry checks. -/
theorem c1_validator_is_parse_only :
    (∀ s v, jsonParse (stripFences s) = some v → validateResponse s = .ok v)
      ∧ (∀ s, jsonParse (stripFences s) = none → validateResponse s = .error .malformed) := by
  constructor
  · intro s v h
    simp [validateResponse, h]
  · intro s h
    simp [validateResponse, h]

/-- A fenced reply with `total_bill` and `paid` entries and no `due` entry. -/
def missingDueReply : String :=
  "\x60\x60\x60json\n\x7b\"currency\":\"INR\",\"amounts\":[\x7b\"type\":\"total_bill\",\"value\":100,\"source\":\"text: Total 100\"\x7d,\x7b\"type\":\"paid\",\"value\":60,\"source\":\"text: Paid 60\"\x7d],\"status\":\"ok\"\x7d\n\x60\x60\x60"

/-- The parse of `missingDueReply` after fence stripping. -/
def missingDueJson : Json :=
  .obj [("currency", .str "INR"),
        ("amounts", .arr
          [.obj [("type", .str "total_bill"), ("value", .num 100 0),
                 ("source", .str "text: Total 100")],
           .obj [("type", .str "paid"), ("value", .num 60 0),
                 ("source", .str "text: Paid 60")]]),
        ("status", .str "ok")]

/-- C1 witness: a reply missing the optional `due` kind is accepted, and an
unparseable reply is rejected with the malformed-response error. -/
theorem c1_validator_witness :
    validateResponse missingDueReply = .ok missingDueJson
      ∧ validateResponse "no json here" = .error .malformed :=
  ⟨c1_validator_is_parse_only.1 missingDueReply missingDueJson rfl,
   c1_validator_is_parse_only.2 "no json here" rfl⟩

/-! ## C2 — a storage failure is surfaced, not swallowed -/

/-- C2 (amended): if persisting either artifact fails after the structured
result has been computed and validated, the throw reaches the handler's
outer catch: `process` answers with the generic 500 failure, not with the
structured result. -/
theorem c2_storage_failure_surfaced (env : Env) (store : Store) (buffer : List Nat)
    (ocrText minit text m : String) (att : List String) (v : Json)
    (hmiss : storeLookup store (jsonPath (sha256hex buffer)) = none)
    (hrec : env.recognize buffer = .ok ocrText)
    (hinit : initLoop env (modelCandidates env) = some minit)
    (hinv : invoke env (buildPrompt ocrText) (modelCandidates env) = (.success text m, att))
    (hval : validateResponse text = .ok v)
    (hwf : env.writeFails (imagePath (sha256hex buffer)) = true
           ∨ (env.writeFails (imagePath (sha256hex buffer)) = false
              ∧ env.writeFails (jsonPath (sha256hex buffer)) = true)) :
    (process env store (some buffer)).result = .genericError
      ∧ ∀ w, (process env store (some buffer)).result ≠ .success w := by
  have hres : (process env store (some buffer)).result = .genericError := by
    rcases hwf with h1 | ⟨h1, h2⟩
    · simp [process, hmiss, hrec, hinit, hinv, hval, h1]
    · simp [process, hmiss, hrec, hinit, hinv, hval, h1, h2]
  refine ⟨hres, ?_⟩
  intro w h
  rw [hres] at h
  exact ProcResult.noConfusion h

/-- `stubEnv` with every filesystem write failing. -/
def storageFailEnv : Env where
  envModel := none
  recognize := fun _ => .ok "Total: 100"
  initModel := fun _ => .ok ()
  genContent := fun _ _ => .ok "\x7b\"status\":\"ok\"\x7d"
  writeFails := fun _ => true

/-- C2 counterexample: with the pipeline succeeding through validation and
only persistence failing, `process` answers the generic 500 failure instead
of the computed result; the identical environment with working writes shows
the result that was available. -/
theorem c2_counterexample :
    (process storageFailEnv [] (some [1])).result = .genericError
      ∧ (process storageFailEnv [] (some [1])).result ≠ .success (.obj [("status", .str "ok")])
      ∧ (process stubEnv [] (some [1])).result = .success (.obj [("status", .str "ok")]) := by
  refine ⟨rfl, ?_, rfl⟩
  intro h
  have e : ProcResult.genericError = ProcResult.success (.obj [("status", .str "ok")]) := h
  exact ProcResult.noConfusion e

/-- C2 witness: the amended statement at a concrete run. -/
theorem c2_storage_failure_witness :
    (process storageFailEnv [] (some [3])).result = .genericError
      ∧ ∀ w, (process storageFailEnv [] (some [3])).result ≠ .success w :=
  c2_storage_failure_surfaced storageFailEnv [] [3] "Total: 100" "gemini-1.5-flash-8b"
    "\x7b\"status\":\"ok\"\x7d" "gemini-1.5-flash-8b" ["gemini-1.5-flash-8b"]
    (.obj [("status", .str "ok")]) rfl rfl rfl rfl rfl (.inl rfl)

/-! ## C6 — cache idempotence -/

/-- C6: a request that succeeds persists the structured result under the
fingerprint of its bytes, and a second request with identical bytes hits
the cache: it returns the identical structured result while performing no
recognition, no external invocation and no further writes — the expensive
work runs at most once in total (once in the first call, zero in the
second). -/
theorem c6_cache_idempotent (env : Env) (store store2 : Store) (buffer : List Nat)
    (ocrText minit text m : String) (att : List String) (v : Json)
    (hmiss : storeLookup store (jsonPath (sha256hex buffer)) = none)
    (hrec : env.recognize buffer = .ok ocrText)
    (hinit : initLoop env (modelCandidates env) = some minit)
    (hinv : invoke env (buildPrompt ocrText) (modelCandidates env) = (.success text m, att))
    (hval : validateResponse text = .ok v)
    (hw1 : env.writeFails (imagePath (sha256hex buffer)) = false)
    (hw2 : env.writeFails (jsonPath (sha256hex buffer)) = false)
    (hs2 : store2 = storePut (storePut store (imagePath (sha256hex buffer)) (.image buffer))
        (jsonPath (sha256hex buffer)) (.jsonFile v)) :
    process env store (some buffer) =
        ⟨.success v, store2, ⟨1, att, [imagePath (sha256hex buffer), jsonPath (sha256hex buffer)]⟩⟩
      ∧ process env store2 (some buffer) = ⟨.cached v, store2, ⟨0, [], []⟩⟩ := by
  constructor
  · subst hs2
    simp [process, hmiss, hrec, hinit, hinv, hval, hw1, hw2]
  · have hl : storeLookup store2 (jsonPath (sha256hex buffer)) = some (.jsonFile v) := by
      subst hs2
      simp [storeLookup, storePut]
    simp [process, hl]

/-- C6 witness: the two consecutive runs of `stubEnv` on the same bytes —
the second is the cache hit with an all-zero trace. -/
theorem c6_cache_idempotent_witness :
    process stubEnv [] (some [1]) =
        ⟨.success (.obj [("status", .str "ok")]),
          storePut (storePut [] (imagePath (sha256hex [1])) (.image [1]))
            (jsonPath (sha256hex [1])) (.jsonFile (.obj [("status", .str "ok")])),
          ⟨1, ["gemini-1.5-flash-8b"], [imagePath (sha256hex [1]), jsonPath (sha256hex [1])]⟩⟩
      ∧ process stubEnv
          (storePut (storePut [] (imagePath (sha256hex [1])) (.image [1]))
            (jsonPath (sha256hex [1])) (.jsonFile (.obj [("status", .str "ok")])))
          (some [1]) =
        ⟨.cached (.obj [("status", .str "ok")]),
          storePut (storePut [] (imagePath (sha256hex [1])) (.image [1]))
            (jsonPath (sha256hex [1])) (.jsonFile (.obj [("status", .str "ok")])),
          ⟨0, [], []⟩⟩ :=
  c6_cache_idempotent stubEnv []
    (storePut (storePut [] (imagePath (sha256hex [1])) (.image [1]))
      (jsonPath (sha256hex [1])) (.jsonFile (.obj [("status", .str "ok")])))
    [1] "Total: 100" "gemini-1.5-flash-8b" "\x7b\"status\":\"ok\"\x7d" "gemini-1.5-flash-8b"
    ["gemini-1.5-flash-8b"] (.obj [("status", .str "ok")]) rfl rfl rfl rfl rfl rfl rfl rfl

/-! ## C7 — the no-input check is a missing-file check, not an empty-bytes check -/

/-- C7 counterexample: an uploaded file whose byte content is empty passes
the `!req.file` guard — the request is fingerprinted, recognized and fully
processed, performing recognition and an external invocation, instead of
failing with the no-input response. -/
theorem c7_counterexample :
    (process stubEnv [] (some ([] : List Nat))).result = .success (.obj [("status", .str "ok")])
      ∧ (process stubEnv [] (some ([] : List Nat))).result ≠ .noFile
      ∧ (process stubEnv [] (some ([] : List Nat))).trace.recognizeCalls = 1
      ∧ (process stubEnv [] (some ([] : List Nat))).trace.llmAttempts = ["gemini-1.5-flash-8b"] := by
  refine ⟨rfl, ?_, rfl, rfl⟩
  intro h
  have e : ProcResult.success (.obj [("status", Json.str "ok")]) = ProcResult.noFile := h
  exact ProcResult.noConfusion e

/-- C7 (amended): the guard rejects with the no-file response (HTTP 400),
performing no recognition, invocation or storage work, exactly when no file
is present in the request; a present file with empty byte content is not
rejected by it — on a cache miss the empty byte sequence still reaches
recognition. -/
theorem c7_no_file_guard :
    (∀ env store, process env store none = ⟨.noFile, store, ⟨0, [], []⟩⟩)
      ∧ (∀ env store, storeLookup store (jsonPath (sha256hex [])) = none →
          (process env store (some ([] : List Nat))).trace.recognizeCalls = 1) := by
  constructor
  · intro env store
    rfl
  · intro env store hmiss
    simp only [process, hmiss]
    repeat' split
    all_goals rfl

/-- C7 witness: the amended statement at concrete inputs — a file-less
request is the 400 with an all-zero trace, and the empty uploaded file on
an empty store runs recognition once. -/
theorem c7_no_file_guard_witness :
    process stubEnv [] none = ⟨.noFile, [], ⟨0, [], []⟩⟩
      ∧ (process stubEnv [] (some ([] : List Nat))).trace.recognizeCalls = 1 :=
  ⟨c7_no_file_guard.1 stubEnv [], c7_no_file_guard.2 stubEnv [] rfl⟩

/-! ## C9 — no artifact is written on the error paths -/

/-- The error outcomes the handler can reach before any `writeFile`:
init failure, LLM fatal failure, candidate exhaustion, malformed reply. -/
def isEnumeratedErr : ProcResult → Bool
  | .initFailed => true
  | .llmFailed _ _ => true
  | .noModel => true
  | .invalidFormat => true
  | _ => false

/-- C9: on a cache miss, whenever the request ends in a recognition
failure, an LLM fatal failure, candidate exhaustion or a malformed external
reply (and also on an init failure), nothing was written: the artifacts are
persisted only after the external reply parses, so the store is unchanged
on every such error path. -/
theorem c9_no_write_on_error (env : Env) (store : Store) (buffer : List Nat)
    (hmiss : storeLookup store (jsonPath (sha256hex buffer)) = none)
    (herr : isEnumeratedErr (process env store (some buffer)).result = true
            ∨ ∃ u, env.recognize buffer = Except.error u) :
    (process env store (some buffer)).store = store
      ∧ (process env store (some buffer)).trace.writeCalls = [] := by
  rcases h1 : env.recognize buffer with u | t
  · constructor <;> simp [process, hmiss, h1]
  · rcases h2 : initLoop env (modelCandidates env) with _ | m
    · constructor <;> simp [process, hmiss, h1, h2]
    · rcases h3 : invoke env (buildPrompt t) (modelCandidates env) with ⟨out, att⟩
      cases out with
      | fatal s st => constructor <;> simp [process, hmiss, h1, h2, h3]
      | exhausted => constructor <;> simp [process, hmiss, h1, h2, h3]
      | success text mm =>
        cases h4 : validateResponse text with
        | error ve => constructor <;> simp [process, hmiss, h1, h2, h3, h4]
        | ok v =>
          exfalso
          rcases herr with he | ⟨u, hu⟩
          · cases h5 : env.writeFails (imagePath (sha256hex buffer)) with
            | true => simp [process, hmiss, h1, h2, h3, h4, h5, isEnumeratedErr] at he
            | false =>
              cases h6 : env.writeFails (jsonPath (sha256hex buffer)) with
              | true => simp [process, hmiss, h1, h2, h3, h4, h5, h6, isEnumeratedErr] at he
              | false => simp [process, hmiss, h1, h2, h3, h4, h5, h6, isEnumeratedErr] at he
          · rw [h1] at hu
            exact Except.noConfusion hu

/-- C9 witness: the all-404 run ends in the no-accessible-model error with
the store untouched and no write attempted. -/
theorem c9_no_write_witness :
    (process exhaustedEnv [] (some [2])).store = []
      ∧ (process exhaustedEnv [] (some [2])).trace.writeCalls = [] :=
  c9_no_write_on_error exhaustedEnv [] [2] rfl (.inl (by rfl))
